import Mathlib

/-!
Verification of the nmea0183 streaming sentence parser.

The repository provides `src/zda.rs` (the ZDA date/time field decoder) and the
integration tests `tests/parsing.rs`.  The frame assembler, checksum validator,
sentence dispatcher and the shared value parsers live in crate modules that are
not part of the provided sources, so they are modelled here from the
specification (sections 4.1-4.5 of the design document); every such definition
carries a doc comment starting with "Modelled from the spec:".  `ZDA.parse` is a
direct embedding of `src/zda.rs`.

Bytes are modelled as natural numbers (ASCII codes), `&str` field slices as
lists of bytes, and the Rust `f32` seconds value as an exact rational built
from the decimal text.
-/

namespace Nmea0183

deriving instance DecidableEq for Except

/-- The five error kinds of the design document, standing for the `&'static str`
error values of the crate. -/
inductive NmeaError
  | sentenceTooLong
  | checksumMismatch
  | unsupportedSource
  | unsupportedSentenceType
  | malformedField
deriving DecidableEq, Repr

/-- One comma-separated field of a sentence body: a list of ASCII byte values. -/
abbrev Field := List Nat

/-- ASCII byte values of a Lean string literal (all NMEA text is ASCII). -/
def asciiBytes (s : String) : List Nat := s.data.map Char.toNat

/-- Numeric value of one ASCII decimal digit byte. -/
def digit? (b : Nat) : Option Nat :=
  if 48 ≤ b ∧ b ≤ 57 then some (b - 48) else none

/-- Accumulate the decimal value of a digit-byte list; `none` on any non-digit. -/
def digitsValAux : List Nat → Nat → Option Nat
  | [], acc => some acc
  | b :: rest, acc =>
    match digit? b with
    | some d => digitsValAux rest (acc * 10 + d)
    | none => none

/-- Decimal value of a non-empty all-digit byte list; `none` otherwise. -/
def digitsVal? : Field → Option Nat
  | [] => none
  | bs => digitsValAux bs 0

/-- Modelled from the spec: `common::parse_u8` (crate module `common` is not
under src/).  Section 4.5: an empty or missing field is "absent"; non-numeric
text (or a value outside the u8 range) is a decode failure. -/
def parse_u8 : Option Field → Except NmeaError (Option Nat)
  | none => .ok none
  | some [] => .ok none
  | some bs =>
    match digitsVal? bs with
    | some v => if v ≤ 255 then .ok (some v) else .error .malformedField
    | none => .error .malformedField

/-- Modelled from the spec: `common::parse_u16`, as `parse_u8` with the u16
range. -/
def parse_u16 : Option Field → Except NmeaError (Option Nat)
  | none => .ok none
  | some [] => .ok none
  | some bs =>
    match digitsVal? bs with
    | some v => if v ≤ 65535 then .ok (some v) else .error .malformedField
    | none => .error .malformedField

/-- Modelled from the spec: `common::parse_i8`: an optional leading minus sign
followed by digits, within the i8 range; empty or missing means absent. -/
def parse_i8 : Option Field → Except NmeaError (Option Int)
  | none => .ok none
  | some [] => .ok none
  | some bs =>
    let signed : Int × Field :=
      match bs with
      | 45 :: rest => (-1, rest)
      | _ => (1, bs)
    match digitsVal? signed.2 with
    | some v =>
      if -128 ≤ signed.1 * v ∧ signed.1 * v ≤ 127 then .ok (some (signed.1 * v))
      else .error .malformedField
    | none => .error .malformedField

/-- Exact rational value of decimal text `digits[.digits]`, the model of the
crate's fractional-second parsing (the f32 is modelled exactly). -/
def decimalVal? (bs : Field) : Option ℚ :=
  match bs.splitOn 46 with
  | [ip] => (digitsVal? ip).map (fun n => (n : ℚ))
  | [ip, fp] =>
    match digitsVal? ip, digitsValAux fp 0 with
    | some n, some f => some (mkRat (n * 10 ^ fp.length + f) (10 ^ fp.length))
    | _, _ => none
  | _ => none

/-- Time of day as decoded from the wire: hours, minutes and (fractional)
seconds, mirroring the crate's `datetime::Time` with the f32 seconds modelled
as an exact rational. -/
structure Time where
  hours : Nat
  minutes : Nat
  seconds : ℚ
deriving DecidableEq, Repr

/-- Modelled from the spec: `Time::parse_from_hhmmss` (crate module `datetime`
is not under src/).  Section 4.5: a time field is two digit chars of hours,
two of minutes, then seconds with optional fractional part; empty or missing
means absent; unparseable text is a decode failure. -/
def Time.parse_from_hhmmss : Option Field → Except NmeaError (Option Time)
  | none => .ok none
  | some [] => .ok none
  | some bs =>
    if bs.length < 6 then .error .malformedField
    else
      match digitsVal? (bs.take 2), digitsVal? ((bs.drop 2).take 2),
          decimalVal? (bs.drop 4) with
      | some h, some m, some s => .ok (some ⟨h, m, s⟩)
      | _, _, _ => .error .malformedField

/-- Modelled from the spec: the closed `Source` enumeration derived from the
talker prefix (GPS, GLONASS, Galileo, combined GNSS). -/
inductive Source
  | GPS
  | GLONASS
  | GALILEO
  | GNSS
deriving DecidableEq, Repr

/-- Modelled from the spec: the closed talker-to-source lookup of the
dispatcher ("GP", "GL", "GA", "GN"); an unknown talker has no source. -/
def Source.from_talker : Field → Option Source
  | [71, 80] => some .GPS
  | [71, 76] => some .GLONASS
  | [71, 65] => some .GALILEO
  | [71, 78] => some .GNSS
  | _ => none

/-- The ZDA record of `src/zda.rs`: source, UTC time, day, month, year and the
two optional UTC offset fields. -/
structure ZDA where
  source : Source
  time : Time
  day : Nat
  month : Nat
  year : Nat
  offset_hours : Option Int
  offset_minutes : Option Nat
deriving DecidableEq, Repr

/-- Embedding of `ZDA::parse` from `src/zda.rs`: six `fields.next()` calls in
order (time, day, month, year, offset hours, offset minutes), each `?`
propagating a decode failure; the final match demands the first four present
and leaves the offsets as parsed. -/
def ZDA.parse (source : Source) (fields : List Field) :
    Except NmeaError (Option ZDA) := do
  let time ← Time.parse_from_hhmmss fields[0]?
  let day ← parse_u8 fields[1]?
  let month ← parse_u8 fields[2]?
  let year ← parse_u16 fields[3]?
  let offset_hours ← parse_i8 fields[4]?
  let offset_minutes ← parse_u8 fields[5]?
  match time, day, month, year with
  | some time, some day, some month, some year =>
    pure (some { source, time, day, month, year, offset_hours, offset_minutes })
  | _, _, _, _ => pure none

/-- One satellite entry of a satellites-in-view sentence: PRN, elevation,
azimuth and optional signal-to-noise figure (section 3 of the spec). -/
structure Satellite where
  prn : Nat
  elevation : Nat
  azimuth : Nat
  snr : Option Nat
deriving DecidableEq, Repr

/-- Satellites-in-view record: message sequencing numbers, the total count of
visible satellites, and the satellites actually reported in this physical
sentence. -/
structure GSV where
  source : Source
  total_messages_number : Nat
  message_number : Nat
  sat_in_view : Nat
  satellites : List Satellite
deriving DecidableEq, Repr

/-- Satellites actually reported by the record, never a fixed-size padded
array (spec section 4.4). -/
def GSV.get_in_view_satellites (g : GSV) : List Satellite := g.satellites

/-- Modelled from the spec: the per-sentence satellite groups of a GSV body,
four fields each (PRN, elevation, azimuth, optional SNR), at most four
satellites per physical sentence (spec section 3); an unreported (absent)
group ends the list. -/
def parseSatellites : Nat → List Field → Except NmeaError (List Satellite)
  | 0, _ => .ok []
  | _, [] => .ok []
  | n + 1, p :: e :: a :: rest => do
    let prn ← parse_u8 (some p)
    let elevation ← parse_u8 (some e)
    let azimuth ← parse_u16 (some a)
    match prn, elevation, azimuth with
    | some prn, some elevation, some azimuth =>
      match rest with
      | s :: more => do
        let snr ← parse_u8 (some s)
        let sats ← parseSatellites n more
        pure (⟨prn, elevation, azimuth, snr⟩ :: sats)
      | [] => pure [⟨prn, elevation, azimuth, none⟩]
    | _, _, _ => pure []
  | _ + 1, _ => .ok []

/-- Modelled from the spec: the GSV field decoder (crate module `gsv` is not
under src/).  Decodes total-message count, message number and
satellites-in-view count, then the satellite groups of this physical
sentence. -/
def GSV.parse (source : Source) (fields : List Field) :
    Except NmeaError (Option GSV) := do
  let total ← parse_u8 fields[0]?
  let msg ← parse_u8 fields[1]?
  let inview ← parse_u8 fields[2]?
  match total, msg, inview with
  | some total, some msg, some inview => do
    let sats ← parseSatellites 4 (fields.drop 3)
    pure (some { source, total_messages_number := total, message_number := msg,
                 sat_in_view := inview, satellites := sats })
  | _, _, _ => pure none

/-- The closed union of decoded results over the sentence kinds the claims
exercise; `none` is the "recognized, no payload" marker. -/
inductive ParseResult
  | ZDA : Option Nmea0183.ZDA → ParseResult
  | GSV : Option Nmea0183.GSV → ParseResult
deriving DecidableEq, Repr

/-- Running bytewise XOR of a sentence body, as the checksum validator
computes it (spec section 4.2). -/
def checksum (body : Field) : Nat := body.foldl (fun acc b => acc ^^^ b) 0

/-- Value of one uppercase hexadecimal digit byte (spec section 6: checksums
are rendered as uppercase hex). -/
def hexDigitVal? (b : Nat) : Option Nat :=
  if 48 ≤ b ∧ b ≤ 57 then some (b - 48)
  else if 65 ≤ b ∧ b ≤ 70 then some (b - 55)
  else none

/-- Modelled from the spec: the sentence dispatcher (spec section 4.3), for
the sentence vocabulary the claims exercise.  Splits a validated body on
commas, maps the two-character talker prefix through the closed source
lookup, the three-character type through the decoder table, and hands the
remaining fields to the matching field decoder. -/
def dispatch (body : Field) : Except NmeaError ParseResult :=
  match body.splitOn 44 with
  | [] => .error .unsupportedSentenceType
  | header :: fields =>
    match Source.from_talker (header.take 2) with
    | none => .error .unsupportedSource
    | some source =>
      match header.drop 2 with
      | [90, 68, 65] => (ZDA.parse source fields).map ParseResult.ZDA
      | [71, 83, 86] => (GSV.parse source fields).map ParseResult.GSV
      | _ => .error .unsupportedSentenceType

/-- Modelled from the spec: checksum validation of a completed frame (spec
section 4.2): parse the two declared hex digits, compare with the running
XOR of the body, and only on a match hand the body to the dispatcher. -/
def validate (body : Field) (c1 c2 : Nat) : Except NmeaError ParseResult :=
  match hexDigitVal? c1, hexDigitVal? c2 with
  | some h, some l =>
    if checksum body = 16 * h + l then dispatch body
    else .error .checksumMismatch
  | _, _ => .error .checksumMismatch

/-- Modelled from the spec: the frame assembler states (spec section 4.1):
idle, accumulating a body, or awaiting the checksum digits and terminator
(`tail` holds the bytes already received after the `*`). -/
inductive PState
  | idle
  | accumulating
  | awaiting (tail : List Nat)
deriving DecidableEq, Repr

/-- Modelled from the spec: one parser instance: the configured maximum
sentence length, the assembler state and the accumulation buffer (spec
sections 4.1 and 5). -/
structure Parser where
  maxLen : Nat
  state : PState
  buffer : List Nat
deriving DecidableEq, Repr

/-- A fresh parser (`Parser::new`) for a configured maximum body length: idle
with an empty buffer.  The crate fixes the bound by the strict/non-strict
build configuration; here it is the explicit parameter. -/
def Parser.new (maxLen : Nat) : Parser := ⟨maxLen, .idle, []⟩

/-- Modelled from the spec: `Parser::parse_from_byte`, the byte-level state
machine of section 4.1.  A `$` in any state resets the buffer and starts
accumulating; idle discards other bytes silently; while accumulating, `*`
freezes the body and other bytes append, with an accumulation past the
configured bound reporting `SentenceTooLong` and returning to idle; after
`*`, the two checksum bytes and the CRLF terminator complete the frame, which
is validated and dispatched, the assembler returning to idle either way (a
malformed terminator discards the frame; the spec leaves it unspecified). -/
def parse_from_byte (p : Parser) (b : Nat) :
    Parser × Option (Except NmeaError ParseResult) :=
  if b = 36 then ({ p with state := .accumulating, buffer := [] }, none)
  else
    match p.state with
    | .idle => (p, none)
    | .accumulating =>
      if b = 42 then ({ p with state := .awaiting [] }, none)
      else if p.buffer.length < p.maxLen then
        ({ p with buffer := p.buffer ++ [b] }, none)
      else ({ p with state := .idle, buffer := [] }, some (.error .sentenceTooLong))
    | .awaiting tail =>
      match tail with
      | [] => ({ p with state := .awaiting [b] }, none)
      | [c1] => ({ p with state := .awaiting [c1, b] }, none)
      | [c1, c2] =>
        if b = 13 then ({ p with state := .awaiting [c1, c2, b] }, none)
        else ({ p with state := .idle, buffer := [] }, none)
      | c1 :: c2 :: _ =>
        if b = 10 then
          ({ p with state := .idle, buffer := [] }, some (validate p.buffer c1 c2))
        else ({ p with state := .idle, buffer := [] }, none)

/-- Modelled from the spec: `Parser::parse_from_bytes`: feed a chunk one byte
at a time through `parse_from_byte`, collecting the emitted results in order
and threading the parser state. -/
def parse_from_bytes (p : Parser) :
    List Nat → Parser × List (Except NmeaError ParseResult)
  | [] => (p, [])
  | b :: rest =>
    let step := parse_from_byte p b
    let more := parse_from_bytes step.1 rest
    (more.1, step.2.toList ++ more.2)

/-- A complete frame on the wire: `$`, the body, `*`, the two checksum bytes
and the CRLF terminator. -/
def frame (body : Field) (c1 c2 : Nat) : List Nat :=
  36 :: body ++ [42, c1, c2, 13, 10]

theorem ok_bind {α β : Type} (a : α) (f : α → Except NmeaError β) :
    (Except.ok a >>= f : Except NmeaError β) = f a := rfl

theorem error_bind {α β : Type} (e : NmeaError) (f : α → Except NmeaError β) :
    (Except.error e >>= f : Except NmeaError β) = .error e := rfl

theorem parse_from_bytes_append (p : Parser) (a b : List Nat) :
    parse_from_bytes p (a ++ b) =
      ((parse_from_bytes (parse_from_bytes p a).1 b).1,
        (parse_from_bytes p a).2 ++ (parse_from_bytes (parse_from_bytes p a).1 b).2) := by
  induction a generalizing p with
  | nil => simp [parse_from_bytes]
  | cons x xs ih => simp [parse_from_bytes, ih, List.append_assoc]

theorem idle_step (p : Parser) (hp : p.state = .idle) (x : Nat) (hx : x ≠ 36) :
    parse_from_byte p x = (p, none) := by
  simp [parse_from_byte, hx, hp]

theorem idle_run (p : Parser) (hp : p.state = .idle) :
    ∀ g : List Nat, (∀ b ∈ g, b ≠ 36) → parse_from_bytes p g = (p, []) := by
  intro g
  induction g with
  | nil => intro; rfl
  | cons x xs ih =>
    intro hg
    have hx := hg x (List.mem_cons_self x xs)
    have hxs : ∀ b ∈ xs, b ≠ 36 := fun b hb => hg b (List.mem_cons_of_mem x hb)
    simp [parse_from_bytes, idle_step p hp x hx, ih hxs]

theorem acc_run (m : Nat) :
    ∀ (body buf : List Nat), (∀ b ∈ body, b ≠ 36 ∧ b ≠ 42) →
      buf.length + body.length ≤ m →
      parse_from_bytes ⟨m, .accumulating, buf⟩ body =
        (⟨m, .accumulating, buf ++ body⟩, []) := by
  intro body
  induction body with
  | nil => intro buf _ _; simp [parse_from_bytes]
  | cons x xs ih =>
    intro buf hb hlen
    have hx := hb x (List.mem_cons_self x xs)
    have hxs : ∀ b ∈ xs, b ≠ 36 ∧ b ≠ 42 :=
      fun b hmem => hb b (List.mem_cons_of_mem x hmem)
    have hlt : buf.length < m := by
      have := hlen; simp [List.length_cons] at this; omega
    have hstep : parse_from_byte ⟨m, .accumulating, buf⟩ x =
        (⟨m, .accumulating, buf ++ [x]⟩, none) := by
      simp [parse_from_byte, hx.1, hx.2, hlt]
    have hrest := ih (buf ++ [x]) hxs (by simp at hlen ⊢; omega)
    simp [parse_from_bytes, hstep, hrest, List.append_assoc]

theorem acc_overflow_run (m : Nat) :
    ∀ (junk buf : List Nat), (∀ b ∈ junk, b ≠ 36 ∧ b ≠ 42) →
      buf.length ≤ m → m < buf.length + junk.length →
      parse_from_bytes ⟨m, .accumulating, buf⟩ junk =
        (Parser.new m, [.error .sentenceTooLong]) := by
  intro junk
  induction junk with
  | nil =>
    intro buf _ hle hlt
    simp at hlt
    exact absurd hlt (Nat.not_lt.mpr hle)
  | cons x xs ih =>
    intro buf hb hle hlt
    have hx := hb x (List.mem_cons_self x xs)
    have hxs : ∀ b ∈ xs, b ≠ 36 ∧ b ≠ 42 :=
      fun b hmem => hb b (List.mem_cons_of_mem x hmem)
    rcases Nat.lt_or_ge buf.length m with h | h
    · have hstep : parse_from_byte ⟨m, .accumulating, buf⟩ x =
          (⟨m, .accumulating, buf ++ [x]⟩, none) := by
        simp [parse_from_byte, hx.1, hx.2, h]
      have hrest := ih (buf ++ [x]) hxs (by simpa using h)
        (by simp [List.length_cons] at hlt ⊢; omega)
      simp [parse_from_bytes, hstep, hrest]
    · have hstep : parse_from_byte ⟨m, .accumulating, buf⟩ x =
          (⟨m, .idle, []⟩, some (.error .sentenceTooLong)) := by
        simp [parse_from_byte, hx.1, hx.2, Nat.not_lt.mpr h]
      have hrest := idle_run ⟨m, .idle, []⟩ rfl xs (fun b hmem => (hxs b hmem).1)
      simp [parse_from_bytes, hstep, hrest, Parser.new]

theorem tail_run (m : Nat) (body : List Nat) (c1 c2 : Nat)
    (h1 : c1 ≠ 36) (h2 : c2 ≠ 36) :
    parse_from_bytes ⟨m, .accumulating, body⟩ [42, c1, c2, 13, 10] =
      (Parser.new m, [validate body c1 c2]) := by
  simp [parse_from_bytes, parse_from_byte, h1, h2, Parser.new]

theorem cons_run (p : Parser) (b : Nat) (rest : List Nat) :
    parse_from_bytes p (b :: rest) =
      ((parse_from_bytes (parse_from_byte p b).1 rest).1,
        (parse_from_byte p b).2.toList ++
          (parse_from_bytes (parse_from_byte p b).1 rest).2) := rfl

theorem frame_run (m : Nat) (body : Field) (c1 c2 : Nat)
    (hb : ∀ b ∈ body, b ≠ 36 ∧ b ≠ 42) (hlen : body.length ≤ m)
    (h1 : c1 ≠ 36) (h2 : c2 ≠ 36) :
    parse_from_bytes (Parser.new m) (frame body c1 c2) =
      (Parser.new m, [validate body c1 c2]) := by
  have hacc := acc_run m body [] hb (by simpa using hlen)
  have htail := tail_run m body c1 c2 h1 h2
  have hstep : parse_from_byte (Parser.new m) 36 = (⟨m, .accumulating, []⟩, none) := rfl
  have hshape : frame body c1 c2 = 36 :: (body ++ [42, c1, c2, 13, 10]) := by
    simp [frame]
  rw [hshape, cons_run, hstep]
  simp only [List.nil_append] at hacc
  simp [parse_from_bytes_append, hacc, htail]

theorem foldl_xor_shift (l : List Nat) :
    ∀ init : Nat, l.foldl (fun acc b => acc ^^^ b) init =
      init ^^^ l.foldl (fun acc b => acc ^^^ b) 0 := by
  induction l with
  | nil => intro init; simp
  | cons x xs ih =>
    intro init
    simp only [List.foldl_cons]
    rw [ih (init ^^^ x), ih (0 ^^^ x)]
    simp [Nat.xor_assoc]

theorem xor_left_comm (a b c : Nat) : a ^^^ (b ^^^ c) = b ^^^ (a ^^^ c) := by
  rw [← Nat.xor_assoc, Nat.xor_comm a b, Nat.xor_assoc]

theorem checksum_set (body : List Nat) :
    ∀ (i c : Nat) (h : i < body.length),
      checksum (body.set i (body[i] ^^^ c)) = checksum body ^^^ c := by
  induction body with
  | nil => intro i c h; simp at h
  | cons x xs ih =>
    intro i c h
    cases i with
    | zero =>
      simp only [List.getElem_cons_zero, List.set_cons_zero, checksum, List.foldl_cons]
      rw [foldl_xor_shift xs (0 ^^^ (x ^^^ c)), foldl_xor_shift xs (0 ^^^ x)]
      simp [Nat.xor_assoc, Nat.xor_comm, xor_left_comm]
    | succ j =>
      have hj : j < xs.length := by simpa using h
      simp only [List.getElem_cons_succ, List.set_cons_succ, checksum, List.foldl_cons]
      rw [foldl_xor_shift (xs.set j (xs[j] ^^^ c)) (0 ^^^ x), foldl_xor_shift xs (0 ^^^ x)]
      have hrec := ih j c hj
      simp only [checksum] at hrec
      rw [hrec]
      simp [Nat.xor_assoc, Nat.xor_comm, xor_left_comm]

theorem xor_ne_self (a c : Nat) (hc : c ≠ 0) : a ^^^ c ≠ a := by
  intro h
  have h2 : a ^^^ (a ^^^ c) = a ^^^ a := by rw [h]
  rw [← Nat.xor_assoc, Nat.xor_self, Nat.zero_xor] at h2
  exact hc h2

theorem hex_ne_frame_bytes (c v : Nat) (h : hexDigitVal? c = some v) :
    c ≠ 36 ∧ c ≠ 42 := by
  constructor <;> rintro rfl <;> simp [hexDigitVal?] at h

theorem time_error_eq (x : Option Field) (e : NmeaError)
    (h : Time.parse_from_hhmmss x = .error e) : e = .malformedField := by
  rcases x with _ | l
  · simp [Time.parse_from_hhmmss] at h
  · rcases l with _ | ⟨b, bs⟩
    · simp [Time.parse_from_hhmmss] at h
    · simp only [Time.parse_from_hhmmss] at h
      split at h
      · injection h with h; exact h.symm
      · split at h <;> simp_all

theorem parse_u8_error_eq (x : Option Field) (e : NmeaError)
    (h : parse_u8 x = .error e) : e = .malformedField := by
  rcases x with _ | l
  · simp [parse_u8] at h
  · rcases l with _ | ⟨b, bs⟩
    · simp [parse_u8] at h
    · simp only [parse_u8] at h
      split at h
      · split at h <;> simp_all
      · simp_all

theorem parse_u16_error_eq (x : Option Field) (e : NmeaError)
    (h : parse_u16 x = .error e) : e = .malformedField := by
  rcases x with _ | l
  · simp [parse_u16] at h
  · rcases l with _ | ⟨b, bs⟩
    · simp [parse_u16] at h
    · simp only [parse_u16] at h
      split at h
      · split at h <;> simp_all
      · simp_all

theorem parse_i8_error_eq (x : Option Field) (e : NmeaError)
    (h : parse_i8 x = .error e) : e = .malformedField := by
  rcases x with _ | l
  · simp [parse_i8] at h
  · rcases l with _ | ⟨b, bs⟩
    · simp [parse_i8] at h
    · simp only [parse_i8] at h
      split at h
      · split at h <;> simp_all
      · simp_all

theorem zda_parse_eq_match (src : Source) (fields : List Field) :
    ZDA.parse src fields =
      match Time.parse_from_hhmmss fields[0]? with
      | .error e => .error e
      | .ok t =>
        match parse_u8 fields[1]? with
        | .error e => .error e
        | .ok d =>
          match parse_u8 fields[2]? with
          | .error e => .error e
          | .ok mo =>
            match parse_u16 fields[3]? with
            | .error e => .error e
            | .ok y =>
              match parse_i8 fields[4]? with
              | .error e => .error e
              | .ok oh =>
                match parse_u8 fields[5]? with
                | .error e => .error e
                | .ok om =>
                  match t, d, mo, y with
                  | some t, some d, some mo, some y =>
                    .ok (some ⟨src, t, d, mo, y, oh, om⟩)
                  | _, _, _, _ => .ok none := by
  unfold ZDA.parse
  cases Time.parse_from_hhmmss fields[0]? <;>
  cases parse_u8 fields[1]? <;>
  cases parse_u8 fields[2]? <;>
  cases parse_u16 fields[3]? <;>
  cases parse_i8 fields[4]? <;>
  cases parse_u8 fields[5]? <;>
  rfl

/-- The ZDA record decoded from `GNZDA,181604.456,12,09,2018,-01,15` (4.456
seconds written as the exact rational 4456/1000). -/
def zdaOffsetsRec : ZDA :=
  ⟨.GNSS, ⟨18, 16, mkRat 4456 1000⟩, 12, 9, 2018, some (-1), some 15⟩

/-- The ZDA record decoded from `GNZDA,181604.456,12,09,2018,,` with both
offset fields absent. -/
def zdaNoOffsetsRec : ZDA :=
  ⟨.GNSS, ⟨18, 16, mkRat 4456 1000⟩, 12, 9, 2018, none, none⟩

/-- C1: feeding a byte stream split at any boundary across separate
`parse_from_bytes` deliveries yields exactly the results and final state of
one whole delivery, because parser state persists across calls; and one
`parse_from_bytes` call on a single byte is exactly one `parse_from_byte`
step. -/
theorem chunk_boundary_independence (p : Parser) (a b : List Nat) :
    parse_from_bytes p (a ++ b) =
      ((parse_from_bytes (parse_from_bytes p a).1 b).1,
        (parse_from_bytes p a).2 ++ (parse_from_bytes (parse_from_bytes p a).1 b).2) ∧
    ∀ (q : Parser) (c : Nat),
      parse_from_bytes q [c] =
        ((parse_from_byte q c).1, (parse_from_byte q c).2.toList) := by
  refine ⟨parse_from_bytes_append p a b, ?_⟩
  intro q c
  simp [parse_from_bytes]

/-- C3: a sentence that alone decodes to exactly one result, embedded between
arbitrary dollar-free garbage, still decodes to exactly that one result; the
garbage alone produces no result at all; and a `$` arriving while a sentence
accumulates discards the partial buffer and restarts accumulation. -/
theorem resynchronization (m : Nat) (s g1 g2 : List Nat) (r : ParseResult)
    (hg1 : ∀ b ∈ g1, b ≠ 36) (hg2 : ∀ b ∈ g2, b ≠ 36)
    (hs : parse_from_bytes (Parser.new m) s = (Parser.new m, [.ok r])) :
    parse_from_bytes (Parser.new m) (g1 ++ (s ++ g2)) = (Parser.new m, [.ok r]) ∧
    parse_from_bytes (Parser.new m) g1 = (Parser.new m, []) ∧
    ∀ p : Parser, p.state = .accumulating →
      parse_from_byte p 36 = ({ p with state := .accumulating, buffer := [] }, none) := by
  have hidle1 := idle_run (Parser.new m) rfl g1 hg1
  have hidle2 := idle_run (Parser.new m) rfl g2 hg2
  refine ⟨?_, hidle1, fun p _ => rfl⟩
  rw [parse_from_bytes_append, hidle1]
  simp only [List.nil_append]
  rw [parse_from_bytes_append, hs]
  simp [hidle2]

/-- C3 witness: the ZDA sentence embedded between concrete garbage decodes to
exactly its one record. -/
theorem resynchronization_witness :
    parse_from_bytes (Parser.new 79)
        (asciiBytes "junk*FF" ++
          (asciiBytes "$GNZDA,181604.456,12,09,2018,-01,15*6C\r\n" ++
            asciiBytes "noise")) =
      (Parser.new 79, [.ok (.ZDA (some zdaOffsetsRec))]) :=
  (resynchronization 79 (asciiBytes "$GNZDA,181604.456,12,09,2018,-01,15*6C\r\n")
    (asciiBytes "junk*FF") (asciiBytes "noise") (.ZDA (some zdaOffsetsRec))
    (by decide) (by decide) (by decide)).1

/-- C6: an unterminated accumulation exceeding the configured maximum length
(the bound is the configuration knob distinguishing the strict and non-strict
builds) yields exactly one `SentenceTooLong` error, and a sentence that
decodes from a fresh parser still decodes identically right after it. -/
theorem length_bound (m : Nat) (junk s : List Nat) (r : ParseResult)
    (hj : ∀ b ∈ junk, b ≠ 36 ∧ b ≠ 42)
    (hlen : m < junk.length)
    (hs : parse_from_bytes (Parser.new m) s = (Parser.new m, [.ok r])) :
    parse_from_bytes (Parser.new m) ((36 :: junk) ++ s) =
      (Parser.new m, [.error .sentenceTooLong, .ok r]) := by
  have hjunk := acc_overflow_run m junk [] hj (by simp) (by simpa using hlen)
  have hstep : parse_from_byte (Parser.new m) 36 = (⟨m, .accumulating, []⟩, none) := rfl
  have hfirst : parse_from_bytes (Parser.new m) (36 :: junk) =
      (Parser.new m, [.error .sentenceTooLong]) := by
    rw [cons_run, hstep]
    simp [hjunk]
  rw [parse_from_bytes_append, hfirst, hs]
  rfl

/-- C6 witness: an 80-byte unterminated accumulation against the strict bound
79, followed by the offset-free ZDA sentence. -/
theorem length_bound_witness :
    parse_from_bytes (Parser.new 79)
        ((36 :: List.replicate 80 48) ++
          asciiBytes "$GNZDA,181604.456,12,09,2018,,*44\r\n") =
      (Parser.new 79, [.error .sentenceTooLong, .ok (.ZDA (some zdaNoOffsetsRec))]) :=
  length_bound 79 (List.replicate 80 48)
    (asciiBytes "$GNZDA,181604.456,12,09,2018,,*44\r\n") (.ZDA (some zdaNoOffsetsRec))
    (by decide) (by decide) (by decide)

/-- C2 (amended): for a framed sentence whose declared checksum digits match
the body XOR, flipping any single bit of any body byte such that the flipped
byte is neither `$` nor `*` makes the parser report exactly one
`ChecksumMismatch` failure and never a successful decode.  (A flip that
produces `$` or `*` changes the framing itself instead, see the
counterexample.) -/
theorem checksum_sensitivity (m : Nat) (body : Field) (i k c1 c2 : Nat)
    (hb : ∀ b ∈ body, b ≠ 36 ∧ b ≠ 42)
    (hlen : body.length ≤ m)
    (hi : i < body.length)
    (hk : k < 8)
    (hflip : body[i] ^^^ 2 ^ k ≠ 36 ∧ body[i] ^^^ 2 ^ k ≠ 42)
    (hc1 : hexDigitVal? c1 = some (checksum body / 16))
    (hc2 : hexDigitVal? c2 = some (checksum body % 16)) :
    parse_from_bytes (Parser.new m) (frame (body.set i (body[i] ^^^ 2 ^ k)) c1 c2) =
      (Parser.new m, [.error .checksumMismatch]) := by
  have hb2 : ∀ b ∈ body.set i (body[i] ^^^ 2 ^ k), b ≠ 36 ∧ b ≠ 42 := by
    intro b hmem
    rcases List.mem_or_eq_of_mem_set hmem with h | h
    · exact hb b h
    · rw [h]; exact hflip
  have hlen2 : (body.set i (body[i] ^^^ 2 ^ k)).length ≤ m := by
    simpa [List.length_set] using hlen
  have hrun := frame_run m (body.set i (body[i] ^^^ 2 ^ k)) c1 c2 hb2 hlen2
    (hex_ne_frame_bytes _ _ hc1).1 (hex_ne_frame_bytes _ _ hc2).1
  rw [hrun]
  have hchk : checksum (body.set i (body[i] ^^^ 2 ^ k)) = checksum body ^^^ 2 ^ k :=
    checksum_set body i (2 ^ k) hi
  have hsum : 16 * (checksum body / 16) + checksum body % 16 = checksum body :=
    Nat.div_add_mod (checksum body) 16
  have hne : checksum (body.set i (body[i] ^^^ 2 ^ k)) ≠
      16 * (checksum body / 16) + checksum body % 16 := by
    rw [hchk, hsum]
    exact xor_ne_self _ _ (Nat.pos_iff_ne_zero.mp (Nat.pos_pow_of_pos k (by norm_num)))
  simp [validate, hc1, hc2, hne]

set_option maxHeartbeats 2000000 in
/-- C2 witness: flipping bit 1 of the first body byte of the valid ZDA
sentence (`G`, code 71, becomes `E`, code 69) while keeping the declared
digits `6C` yields exactly one `ChecksumMismatch`. -/
theorem checksum_sensitivity_witness :
    parse_from_bytes (Parser.new 79)
        (frame ((asciiBytes "GNZDA,181604.456,12,09,2018,-01,15").set 0
            ((asciiBytes "GNZDA,181604.456,12,09,2018,-01,15").get ⟨0, by decide⟩ ^^^ 2 ^ 1))
          54 67) =
      (Parser.new 79, [.error .checksumMismatch]) :=
  checksum_sensitivity 79 (asciiBytes "GNZDA,181604.456,12,09,2018,-01,15") 0 1 54 67
    (by decide) (by decide) (by decide) (by decide) (by decide) (by decide) (by decide)

/-- C2 counterexample: the claim as stated is false.  The frame
`$%%GNZDA,181604.456,12,09,2018,-01,15*6C\r\n` has a matching declared
checksum (XOR 108, digits `6C`, and the unflipped frame indeed reaches
dispatch, failing only on its talker).  Flipping bit 0 of body byte 1 turns
`%` (37) into `$` (36); fed the flipped frame, the parser resynchronizes on
that `$` and successfully decodes the embedded ZDA sentence instead of
reporting `ChecksumMismatch`. -/
theorem checksum_sensitivity_cex :
    checksum (asciiBytes "%%GNZDA,181604.456,12,09,2018,-01,15") = 108 ∧
    hexDigitVal? 54 = some (108 / 16) ∧
    hexDigitVal? 67 = some (108 % 16) ∧
    parse_from_bytes (Parser.new 79)
        (frame (asciiBytes "%%GNZDA,181604.456,12,09,2018,-01,15") 54 67) =
      (Parser.new 79, [.error .unsupportedSource]) ∧
    (asciiBytes "%%GNZDA,181604.456,12,09,2018,-01,15").get ⟨1, by decide⟩ = 37 ∧
    37 ^^^ 2 ^ 0 = 36 ∧
    (asciiBytes "%%GNZDA,181604.456,12,09,2018,-01,15").set 1 36 =
      asciiBytes "%$GNZDA,181604.456,12,09,2018,-01,15" ∧
    parse_from_bytes (Parser.new 79)
        (frame (asciiBytes "%$GNZDA,181604.456,12,09,2018,-01,15") 54 67) =
      (Parser.new 79, [.ok (.ZDA (some zdaOffsetsRec))]) := by
  decide

/-- C4: the sentence `$GNZDA,181604.456,12,09,2018,-01,15*6C\r\n` fed to a
fresh parser yields exactly one result: the successful ZDA record with
source GNSS, time 18:16 and 4.456 seconds, date 12.09.2018, offset hours
-1 and offset minutes 15. -/
theorem zda_with_offsets_decodes :
    parse_from_bytes (Parser.new 79)
        (asciiBytes "$GNZDA,181604.456,12,09,2018,-01,15*6C\r\n") =
      (Parser.new 79, [.ok (.ZDA (some zdaOffsetsRec))]) ∧
    zdaOffsetsRec.source = .GNSS ∧
    zdaOffsetsRec.time = ⟨18, 16, mkRat 4456 1000⟩ ∧
    zdaOffsetsRec.day = 12 ∧ zdaOffsetsRec.month = 9 ∧ zdaOffsetsRec.year = 2018 ∧
    zdaOffsetsRec.offset_hours = some (-1) ∧
    zdaOffsetsRec.offset_minutes = some 15 := by
  decide

/-- C5: the sentence `$GNZDA,181604.456,12,09,2018,,*44\r\n` yields the same
time and date as the offset-carrying variant with both empty offset fields
decoded as absent, never as zero. -/
theorem zda_without_offsets_decodes :
    parse_from_bytes (Parser.new 79)
        (asciiBytes "$GNZDA,181604.456,12,09,2018,,*44\r\n") =
      (Parser.new 79, [.ok (.ZDA (some zdaNoOffsetsRec))]) ∧
    zdaNoOffsetsRec.time = zdaOffsetsRec.time ∧
    zdaNoOffsetsRec.day = zdaOffsetsRec.day ∧
    zdaNoOffsetsRec.month = zdaOffsetsRec.month ∧
    zdaNoOffsetsRec.year = zdaOffsetsRec.year ∧
    zdaNoOffsetsRec.offset_hours = none ∧
    zdaNoOffsetsRec.offset_minutes = none := by
  decide

/-- The GSV record decoded from the eight-message GPS sequence's first
physical sentence, carrying its four reported satellites. -/
def gsvGpsRec : GSV :=
  ⟨.GPS, 8, 1, 25,
    [⟨21, 44, 141, some 47⟩, ⟨15, 14, 49, some 44⟩,
      ⟨6, 31, 255, some 46⟩, ⟨3, 25, 280, some 44⟩]⟩

/-- The GSV record decoded from a GLONASS sentence reporting one
satellite. -/
def gsvGloRec : GSV := ⟨.GLONASS, 8, 7, 25, [⟨68, 37, 284, some 50⟩]⟩

set_option maxRecDepth 4000 in
/-- C8: the GPGSV sentence decodes to message 1 of 8 with 25 satellites in
view and `get_in_view_satellites` returning exactly the four satellites
listed in that physical sentence, and the one-satellite GLGSV sentence
yields exactly one — never a fixed-size default-padded array. -/
theorem gsv_reports_unpadded_satellites :
    parse_from_bytes (Parser.new 79)
        (asciiBytes
          "$GPGSV,8,1,25,21,44,141,47,15,14,049,44,6,31,255,46,3,25,280,44*75\r\n") =
      (Parser.new 79, [.ok (.GSV (some gsvGpsRec))]) ∧
    gsvGpsRec.total_messages_number = 8 ∧
    gsvGpsRec.message_number = 1 ∧
    gsvGpsRec.sat_in_view = 25 ∧
    gsvGpsRec.get_in_view_satellites =
      [⟨21, 44, 141, some 47⟩, ⟨15, 14, 49, some 44⟩,
        ⟨6, 31, 255, some 46⟩, ⟨3, 25, 280, some 44⟩] ∧
    gsvGpsRec.get_in_view_satellites.length = 4 ∧
    parse_from_bytes (Parser.new 79) (asciiBytes "$GLGSV,8,7,25,68,37,284,50*5C\r\n") =
      (Parser.new 79, [.ok (.GSV (some gsvGloRec))]) ∧
    gsvGloRec.get_in_view_satellites.length = 1 := by
  decide

/-- C7: if any of the four protocol-mandatory ZDA fields (time, day, month,
year) fails its parse — which happens exactly on non-empty unparseable
text — `ZDA.parse` returns the `MalformedField` failure, not a record and
not the recognized-no-payload outcome. -/
theorem zda_malformed_mandatory (source : Source) (fields : List Field)
    (h : Time.parse_from_hhmmss fields[0]? = .error .malformedField ∨
      parse_u8 fields[1]? = .error .malformedField ∨
      parse_u8 fields[2]? = .error .malformedField ∨
      parse_u16 fields[3]? = .error .malformedField) :
    ZDA.parse source fields = .error .malformedField := by
  rw [zda_parse_eq_match]
  rcases h with h | h | h | h
  · rw [h]
  · cases h0 : Time.parse_from_hhmmss fields[0]? with
    | error e => rw [time_error_eq _ _ h0]
    | ok t => rw [h]
  · cases h0 : Time.parse_from_hhmmss fields[0]? with
    | error e => rw [time_error_eq _ _ h0]
    | ok t =>
      cases h1 : parse_u8 fields[1]? with
      | error e => rw [parse_u8_error_eq _ _ h1]
      | ok d => rw [h]
  · cases h0 : Time.parse_from_hhmmss fields[0]? with
    | error e => rw [time_error_eq _ _ h0]
    | ok t =>
      cases h1 : parse_u8 fields[1]? with
      | error e => rw [parse_u8_error_eq _ _ h1]
      | ok d =>
        cases h2 : parse_u8 fields[2]? with
        | error e => rw [parse_u8_error_eq _ _ h2]
        | ok mo => rw [h]

/-- C7 witness: the unparseable mandatory day field `ab` makes `ZDA.parse`
fail with `MalformedField`. -/
theorem zda_malformed_mandatory_witness :
    ZDA.parse .GNSS
        [asciiBytes "181604.456", asciiBytes "ab", asciiBytes "09",
          asciiBytes "2018", asciiBytes "", asciiBytes ""] =
      .error .malformedField :=
  zda_malformed_mandatory .GNSS
    [asciiBytes "181604.456", asciiBytes "ab", asciiBytes "09",
      asciiBytes "2018", asciiBytes "", asciiBytes ""]
    (Or.inr (Or.inl (by decide)))

/-- C9: ZDA decoding enforces no calendar validity: whenever the six field
parses succeed with the four mandatory values present, the record carries
the parsed day, month and year unchanged — whatever their values. -/
theorem zda_no_calendar_check (src : Source) (fields : List Field)
    (t : Time) (d mo y : Nat) (oh : Option Int) (om : Option Nat)
    (ht : Time.parse_from_hhmmss fields[0]? = .ok (some t))
    (hd : parse_u8 fields[1]? = .ok (some d))
    (hmo : parse_u8 fields[2]? = .ok (some mo))
    (hy : parse_u16 fields[3]? = .ok (some y))
    (hoh : parse_i8 fields[4]? = .ok oh)
    (hom : parse_u8 fields[5]? = .ok om) :
    ZDA.parse src fields = .ok (some ⟨src, t, d, mo, y, oh, om⟩) := by
  rw [zda_parse_eq_match, ht, hd, hmo, hy, hoh, hom]

/-- C9 witness: day 99 and month 13 are carried through unchanged. -/
theorem zda_no_calendar_check_witness :
    ZDA.parse .GNSS
        [asciiBytes "181604.456", asciiBytes "99", asciiBytes "13",
          asciiBytes "2018", asciiBytes "-01", asciiBytes "15"] =
      .ok (some ⟨.GNSS, ⟨18, 16, mkRat 4456 1000⟩, 99, 13, 2018, some (-1), some 15⟩) :=
  zda_no_calendar_check .GNSS
    [asciiBytes "181604.456", asciiBytes "99", asciiBytes "13",
      asciiBytes "2018", asciiBytes "-01", asciiBytes "15"]
    ⟨18, 16, mkRat 4456 1000⟩ 99 13 2018 (some (-1)) (some 15)
    (by decide) (by decide) (by decide) (by decide) (by decide) (by decide)

/-- C10 (amended): `ZDA.parse` returns `Ok(Some)` exactly when the four
mandatory fields parse to present values and the two offset parses do not
fail; it returns `Ok(None)` exactly when all six parses succeed and some
mandatory value is absent (a malformed field anywhere, offsets included,
yields `Err` instead); the offsets are matched independently, so a record
can carry present offset hours with absent offset minutes. -/
theorem zda_payload_characterization (src : Source) (fields : List Field) :
    ((∃ z, ZDA.parse src fields = .ok (some z)) ↔
      ((∃ t, Time.parse_from_hhmmss fields[0]? = .ok (some t)) ∧
        (∃ d, parse_u8 fields[1]? = .ok (some d)) ∧
        (∃ mo, parse_u8 fields[2]? = .ok (some mo)) ∧
        (∃ y, parse_u16 fields[3]? = .ok (some y)) ∧
        (∃ oh, parse_i8 fields[4]? = .ok oh) ∧
        (∃ om, parse_u8 fields[5]? = .ok om))) ∧
    ((ZDA.parse src fields = .ok none) ↔
      ((∃ t, Time.parse_from_hhmmss fields[0]? = .ok t) ∧
        (∃ d, parse_u8 fields[1]? = .ok d) ∧
        (∃ mo, parse_u8 fields[2]? = .ok mo) ∧
        (∃ y, parse_u16 fields[3]? = .ok y) ∧
        (∃ oh, parse_i8 fields[4]? = .ok oh) ∧
        (∃ om, parse_u8 fields[5]? = .ok om) ∧
        ¬((∃ t, Time.parse_from_hhmmss fields[0]? = .ok (some t)) ∧
          (∃ d, parse_u8 fields[1]? = .ok (some d)) ∧
          (∃ mo, parse_u8 fields[2]? = .ok (some mo)) ∧
          (∃ y, parse_u16 fields[3]? = .ok (some y))))) ∧
    ZDA.parse src
        [asciiBytes "181604.456", asciiBytes "12", asciiBytes "09",
          asciiBytes "2018", asciiBytes "-01", asciiBytes ""] =
      .ok (some ⟨src, ⟨18, 16, mkRat 4456 1000⟩, 12, 9, 2018, some (-1), none⟩) := by
  refine ⟨?_, ?_, ?_⟩
  · rw [zda_parse_eq_match]
    cases Time.parse_from_hhmmss fields[0]? <;>
    cases parse_u8 fields[1]? <;>
    cases parse_u8 fields[2]? <;>
    cases parse_u16 fields[3]? <;>
    cases parse_i8 fields[4]? <;>
    cases parse_u8 fields[5]? <;>
    first
      | (simp; done)
      | (rename_i tq dq moq yq ohq omq
         cases tq <;> cases dq <;> cases moq <;> cases yq <;> simp)
  · rw [zda_parse_eq_match]
    cases Time.parse_from_hhmmss fields[0]? <;>
    cases parse_u8 fields[1]? <;>
    cases parse_u8 fields[2]? <;>
    cases parse_u16 fields[3]? <;>
    cases parse_i8 fields[4]? <;>
    cases parse_u8 fields[5]? <;>
    first
      | (simp; done)
      | (rename_i tq dq moq yq ohq omq
         cases tq <;> cases dq <;> cases moq <;> cases yq <;> simp)
  · rfl

/-- C10 counterexample: the claim as stated is false on `src/zda.rs`.  With
time, day, month and year all present and parseable but the offset-hours
field holding the unparseable text `zz`, `ZDA::parse` returns
`Err(MalformedField)`, not `Ok(Some)`; and with the time field empty but the
same bad offset it returns the same `Err`, not `Ok(None)`. -/
theorem zda_payload_cex :
    Time.parse_from_hhmmss (some (asciiBytes "181604.456")) =
      .ok (some ⟨18, 16, mkRat 4456 1000⟩) ∧
    parse_u8 (some (asciiBytes "12")) = .ok (some 12) ∧
    parse_u8 (some (asciiBytes "09")) = .ok (some 9) ∧
    parse_u16 (some (asciiBytes "2018")) = .ok (some 2018) ∧
    ZDA.parse .GNSS
        [asciiBytes "181604.456", asciiBytes "12", asciiBytes "09",
          asciiBytes "2018", asciiBytes "zz", asciiBytes "15"] =
      .error .malformedField ∧
    ZDA.parse .GNSS
        [asciiBytes "", asciiBytes "12", asciiBytes "09",
          asciiBytes "2018", asciiBytes "zz", asciiBytes "15"] =
      .error .malformedField := by
  decide

end Nmea0183
